import Mathlib

/-!
Verification of the Cellemetry mask-analysis engine and its tool layer.

The repository's tool layer (`cellemetry/tools/statistics.py`,
`cellemetry/tools/segmentation.py`, `cellemetry_grid/tools/statistics.py`,
`cellemetry/config/dependencies.py`, the pydantic schemas) is embedded
directly from the source.  The numeric engine `cellemetry.services.analysis`
(functions `get_basic_stats`, `get_spatial_stats`, `analyze_relationships`)
is not part of the source tree — only its callers are — so those functions
are modelled from the design specification, as noted on each definition.
Rational numbers stand in for Python floats; square roots land in `ℝ`.
-/

namespace Cellemetry

/-- A single segmented instance: the set of occupied pixels.  (Data model
`ObjectMask`: a 2D boolean occupancy region, with area and centroid derived
from it.) -/
structure ObjectMask where
  pixels : Finset (ℕ × ℕ)

/-- Pixel area of a mask: the number of occupied pixels. -/
def ObjectMask.area (m : ObjectMask) : ℕ := m.pixels.card

/-- Centroid of a mask: the mean pixel coordinate of its occupied region. -/
def ObjectMask.centroid (m : ObjectMask) : ℚ × ℚ :=
  (m.pixels.sum (fun p => (p.1 : ℚ)) / (m.pixels.card : ℚ),
   m.pixels.sum (fun p => (p.2 : ℚ)) / (m.pixels.card : ℚ))

/-- One population of masks loaded from a serialized mask file. -/
abbrev MaskCollection := List ObjectMask

/-- Mean of a list of rationals; defined as 0 for the empty list. -/
def qmean (xs : List ℚ) : ℚ :=
  if xs.length = 0 then 0 else xs.sum / (xs.length : ℚ)

/-- Population variance (divide by N, not N − 1); 0 for the empty list. -/
def qvariance (xs : List ℚ) : ℚ :=
  if xs.length = 0 then 0
  else ((xs.map (fun x => (x - qmean xs) ^ 2)).sum) / (xs.length : ℚ)

/-- Population standard deviation of a list of rationals. -/
noncomputable def pstd (xs : List ℚ) : ℝ := Real.sqrt (qvariance xs)

/-- Mean of a list of reals; 0 for the empty list. -/
noncomputable def rmean (xs : List ℝ) : ℝ :=
  if xs.length = 0 then 0 else xs.sum / (xs.length : ℝ)

/-- Population variance of a list of reals; 0 for the empty list. -/
noncomputable def rvariance (xs : List ℝ) : ℝ :=
  if xs.length = 0 then 0
  else ((xs.map (fun x => (x - rmean xs) ^ 2)).sum) / (xs.length : ℝ)

/-- Modelled from the spec (§4.2 Unit Converter, the `services.analysis`
module is absent from the source tree): area conversion, `value·s²` under a
pixel scale `s`, unchanged without one. -/
def convert_area (scale : Option ℚ) (v : ℚ) : ℚ :=
  match scale with
  | Option.none => v
  | Option.some s => v * s ^ 2

/-- Modelled from the spec (§4.2): linear conversion, `value·s`. -/
def convert_linear (scale : Option ℚ) (v : ℚ) : ℚ :=
  match scale with
  | Option.none => v
  | Option.some s => v * s

/-- Modelled from the spec (§4.2): density conversion, `value·s⁻²`. -/
def convert_density (scale : Option ℚ) (v : ℚ) : ℚ :=
  match scale with
  | Option.none => v
  | Option.some s => v / s ^ 2

/-- Modelled from the spec (§4.2): area unit label. -/
def area_unit (scale : Option ℚ) : String :=
  match scale with
  | Option.none => "px²"
  | Option.some _ => "µm²"

/-- Modelled from the spec (§4.2): linear-distance unit label. -/
def linear_unit (scale : Option ℚ) : String :=
  match scale with
  | Option.none => "px"
  | Option.some _ => "µm"

/-- Modelled from the spec (§4.2): density unit label. -/
def density_unit_label (scale : Option ℚ) : String :=
  match scale with
  | Option.none => "N/A"
  | Option.some _ => "objects/µm²"

/-- Result of the Morphology Calculator (engine-side `BasicStats`). -/
structure BasicStats where
  count : ℕ
  area_mean : ℚ
  area_std : ℝ
  unit : String

/-- Modelled from the spec (§4.3 Morphology Calculator; the function
`analysis.get_basic_stats` is absent from the source tree): count, mean and
population standard deviation of the scale-converted mask areas; the empty
collection yields 0/0.0/0.0 via the empty-list conventions of `qmean` and
`qvariance`. -/
noncomputable def get_basic_stats (coll : MaskCollection) (pixel_scale : Option ℚ) :
    BasicStats :=
  let areas := coll.map (fun m => convert_area pixel_scale (m.area : ℚ))
  { count := coll.length
    area_mean := qmean areas
    area_std := pstd areas
    unit := area_unit pixel_scale }

/-- Result of the Spatial Distribution Analyzer (engine-side `SpatialStats`). -/
structure SpatialStats where
  avg_nnd : ℝ
  std_nnd : ℝ
  density : ℚ
  avg_neighbor_count : ℚ
  std_neighbor_count : ℝ
  dist_unit : String
  density_unit : String

/-- Squared Euclidean distance between two centroids. -/
def distSq (p q : ℚ × ℚ) : ℚ :=
  (p.1 - q.1) ^ 2 + (p.2 - q.2) ^ 2

/-- Modelled from the spec (§4.4): the fixed, documented neighbor radius in
pixels used for per-object neighbor counts. -/
def neighbor_radius : ℚ := 50

/-- Squared nearest-neighbor distance of centroid `i` within the centroid
list `cs` (0 when there is no other centroid). -/
def nndSq (cs : List (ℚ × ℚ)) (i : ℕ) : ℚ :=
  let ds := ((List.range cs.length).filter (fun j => j ≠ i)).filterMap
    (fun j => (cs.get? i).bind (fun ci => (cs.get? j).map (fun cj => distSq ci cj)))
  match ds with
  | [] => 0
  | d :: rest => rest.foldl min d

/-- Number of other centroids within the fixed neighbor radius of centroid
`i` (Euclidean distance compared through its square). -/
def neighbor_count (cs : List (ℚ × ℚ)) (i : ℕ) : ℕ :=
  (((List.range cs.length).filter (fun j => j ≠ i)).filter
    (fun j =>
      match cs.get? i, cs.get? j with
      | Option.some ci, Option.some cj => decide (distSq ci cj ≤ neighbor_radius ^ 2)
      | _, _ => false)).length

/-- Area of the axis-aligned bounding rectangle spanned by all centroids
(the spec's documented choice of density area estimator). -/
def bbox_area (cs : List (ℚ × ℚ)) : ℚ :=
  match cs with
  | [] => 0
  | c :: rest =>
    let xs := (c :: rest).map Prod.fst
    let ys := (c :: rest).map Prod.snd
    (xs.foldl max c.1 - xs.foldl min c.1) * (ys.foldl max c.2 - ys.foldl min c.2)

/-- Modelled from the spec (§4.4 Spatial Distribution Analyzer; the function
`analysis.get_spatial_stats` is absent from the source tree): nearest-neighbor
distance statistics, bounding-rectangle density and neighbor-count statistics;
collections with zero or one object yield all-zero statistics, and a
degenerate (zero-area) bounding rectangle yields density 0. -/
noncomputable def get_spatial_stats (coll : MaskCollection) (pixel_scale : Option ℚ) :
    SpatialStats :=
  let n := coll.length
  if n ≤ 1 then
    { avg_nnd := 0
      std_nnd := 0
      density := 0
      avg_neighbor_count := 0
      std_neighbor_count := 0
      dist_unit := linear_unit pixel_scale
      density_unit := density_unit_label pixel_scale }
  else
    let cs := coll.map ObjectMask.centroid
    let nnds : List ℝ :=
      (List.range n).map
        (fun i => Real.sqrt (nndSq cs i) * ((convert_linear pixel_scale 1 : ℚ) : ℝ))
    let counts : List ℚ := (List.range n).map (fun i => (neighbor_count cs i : ℚ))
    let rect := bbox_area cs
    { avg_nnd := rmean nnds
      std_nnd := Real.sqrt (rvariance nnds)
      density := if rect = 0 then 0 else convert_density pixel_scale ((n : ℚ) / rect)
      avg_neighbor_count := qmean counts
      std_neighbor_count := pstd counts
      dist_unit := linear_unit pixel_scale
      density_unit := density_unit_label pixel_scale }

/-- The engine's error taxonomy (spec §7). -/
inductive AnalysisError where
  | notFound
  | corruptData
  | invalidScale
deriving DecidableEq

/-- Modelled from the spec (§7 Error Handling): a non-positive pixel scale is
rejected immediately with `InvalidScaleError` before any statistic is
computed. -/
def check_scale (scale : Option ℚ) : Except AnalysisError Unit :=
  match scale with
  | Option.none => Except.ok ()
  | Option.some s => if s ≤ 0 then Except.error AnalysisError.invalidScale else Except.ok ()

/-- Validity of a supplied pixel scale: absent, or strictly positive. -/
def scale_valid : Option ℚ → Prop
  | Option.none => True
  | Option.some s => 0 < s

/-- The `basic_stats(path, scale?)` call surface with scale validation
(modelled from the spec: §6 call surface together with §7). -/
noncomputable def basic_stats_checked (coll : MaskCollection) (scale : Option ℚ) :
    Except AnalysisError BasicStats :=
  match check_scale scale with
  | Except.error e => Except.error e
  | Except.ok _ => Except.ok (get_basic_stats coll scale)

/-- The `spatial_stats(path, scale?)` call surface with scale validation
(modelled from the spec: §6 call surface together with §7). -/
noncomputable def spatial_stats_checked (coll : MaskCollection) (scale : Option ℚ) :
    Except AnalysisError SpatialStats :=
  match check_scale scale with
  | Except.error e => Except.error e
  | Except.ok _ => Except.ok (get_spatial_stats coll scale)

/-- Result of the Relational Matcher (engine-side `RelationalStats`). -/
structure RelationalStats where
  matched_pairs : ℕ
  avg_ratio : ℚ
  std_ratio : ℝ

/-- Overlap ratio of a reference mask `a` against a target mask `b`:
`|intersection pixels| / |b|` (spec §4.5). -/
def overlap_ratio (a b : ObjectMask) : ℚ :=
  ((a.pixels ∩ b.pixels).card : ℚ) / (b.pixels.card : ℚ)

/-- Modelled from the spec (§4.5): the fixed minimum-overlap threshold; any
nonzero overlap counts as a candidate match. -/
def min_overlap_threshold : ℚ := 0

/-- A candidate match: index into population B, index into population A, and
their overlap ratio. -/
structure Cand where
  bIdx : ℕ
  aIdx : ℕ
  ratio : ℚ
deriving DecidableEq

/-- All candidate matches between reference population `A` and target
population `B` whose overlap ratio exceeds the threshold. -/
def candidates (A B : MaskCollection) : List Cand :=
  (List.range B.length).flatMap (fun j =>
    (List.range A.length).filterMap (fun i =>
      let r := overlap_ratio (A.getD i ⟨∅⟩) (B.getD j ⟨∅⟩)
      if min_overlap_threshold < r then Option.some ⟨j, i, r⟩ else Option.none))

/-- Sorting order for greedy matching: descending overlap ratio, ties broken
by lower original B-index, then lower A-index (spec §4.5). -/
def cand_le (x y : Cand) : Bool :=
  if x.ratio = y.ratio then
    (if x.bIdx = y.bIdx then decide (x.aIdx ≤ y.aIdx) else decide (x.bIdx < y.bIdx))
  else decide (y.ratio < x.ratio)

/-- State of the greedy 1:1 matcher: A-objects and B-objects already
consumed, and the accepted pairs. -/
structure MatchState where
  usedA : Finset ℕ
  usedB : Finset ℕ
  pairs : List Cand

/-- One greedy step: accept the candidate iff both of its objects are still
unmatched (1:1 matching discipline, spec §4.5). -/
def greedy_step (s : MatchState) (c : Cand) : MatchState :=
  if c.aIdx ∈ s.usedA ∨ c.bIdx ∈ s.usedB then s
  else
    { usedA := insert c.aIdx s.usedA
      usedB := insert c.bIdx s.usedB
      pairs := s.pairs ++ [c] }

/-- Run the greedy matcher over a candidate list. -/
def greedy_match (cs : List Cand) : MatchState :=
  cs.foldl greedy_step ⟨∅, ∅, []⟩

/-- Invariant of the greedy matcher: as many pairs as consumed A-objects and
consumed B-objects, all indices within the two populations. -/
def MatchInv (nA nB : ℕ) (s : MatchState) : Prop :=
  s.pairs.length = s.usedA.card ∧ s.pairs.length = s.usedB.card ∧
    s.usedA ⊆ Finset.range nA ∧ s.usedB ⊆ Finset.range nB

/-- Modelled from the spec (§4.5 Relational Matcher; the function
`analysis.analyze_relationships` is absent from the source tree): greedy 1:1
matching by descending overlap ratio with deterministic tie-breaks; matched
count and mean/population-std of the matched overlap ratios. -/
noncomputable def analyze_relationships (A B : MaskCollection) : RelationalStats :=
  let sorted := (candidates A B).mergeSort cand_le
  let m := greedy_match sorted
  let ratios := m.pairs.map Cand.ratio
  { matched_pairs := m.pairs.length
    avg_ratio := qmean ratios
    std_ratio := pstd ratios }

/-- A Python value as held in the ADK session state (`Any`-typed slots):
an opaque object handle, a string, a number, or `None`. -/
inductive PyVal where
  | obj (id : ℕ)
  | str (s : String)
  | num (q : ℚ)
  | pynone
deriving DecidableEq

/-- The ADK session-state mapping threaded through tool calls. -/
abbrev StateDict := List (String × PyVal)

/-- `state.get(key)`: the stored value, or Python `None` when absent. -/
def stateGet (state : StateDict) (k : String) : PyVal :=
  match state.find? (fun p => p.1 == k) with
  | Option.some p => p.2
  | Option.none => PyVal.pynone

/-- `state.get(key, default)`: the stored value, or the default when absent. -/
def stateGetD (state : StateDict) (k : String) (d : PyVal) : PyVal :=
  match state.find? (fun p => p.1 == k) with
  | Option.some p => p.2
  | Option.none => d

/-- From `cellemetry/tools/statistics.py`: the `get_relationship_stats` tool
delegates to `analysis.analyze_relationships(cell_file, nuc_file)`; the
injected tool context is never consulted.  `fs` maps a mask-file path to the
collection its unchanged file contents parse to. -/
noncomputable def get_relationship_stats (fs : String → MaskCollection)
    (cell_file nuc_file : String) (tool_context : StateDict) : RelationalStats :=
  analyze_relationships (fs cell_file) (fs nuc_file)

/-- From `cellemetry_grid/config/schemas.py`: `ComprehensiveStats`, all four
blocks optional and defaulting to `None`. -/
structure ComprehensiveStats (B S R : Type) where
  cell_stats : Option B := Option.none
  nuclei_stats : Option B := Option.none
  spatial_stats : Option S := Option.none
  relational_stats : Option R := Option.none

/-- Python truthiness of an `Optional[str]` argument: `None` and the empty
string are falsy. -/
def pyTruthyStr : Option String → Bool
  | Option.none => false
  | Option.some s => !s.isEmpty

/-- From `cellemetry_grid/tools/statistics.py`: `compute_comprehensive_stats`
fills `cell_stats` and `spatial_stats` when `cell_file` is truthy,
`nuclei_stats` when `nuc_file` is truthy, and `relational_stats` when both
are; the analysis functions themselves are passed in as parameters. -/
def compute_comprehensive_stats {B S R : Type}
    (basic : String → Option ℚ → B) (spatial : String → Option ℚ → S)
    (relational : String → String → R)
    (cell_file nuc_file : Option String) (pixel_scale : Option ℚ) :
    ComprehensiveStats B S R :=
  let stats : ComprehensiveStats B S R := {}
  let stats :=
    if pyTruthyStr cell_file then
      { stats with
        cell_stats := Option.some (basic (cell_file.getD "") pixel_scale)
        spatial_stats := Option.some (spatial (cell_file.getD "") pixel_scale) }
    else stats
  let stats :=
    if pyTruthyStr nuc_file then
      { stats with nuclei_stats := Option.some (basic (nuc_file.getD "") pixel_scale) }
    else stats
  if pyTruthyStr cell_file && pyTruthyStr nuc_file then
    { stats with
      relational_stats :=
        Option.some (relational (cell_file.getD "") (nuc_file.getD "")) }
  else stats

/-- Splits a character list at every `'/'` (pieces may be empty). -/
def splitSlash : List Char → List (List Char)
  | [] => [[]]
  | c :: cs =>
    if c = '/' then [] :: splitSlash cs
    else
      match splitSlash cs with
      | [] => [[c]]
      | p :: ps => (c :: p) :: ps

/-- Joins pieces with `'/'` separators. -/
def joinSlash : List (List Char) → List Char
  | [] => []
  | [p] => p
  | p :: q :: ps => p ++ '/' :: joinSlash (q :: ps)

/-- A path component kept by `pathlib` parsing: nonempty and not `"."`. -/
def goodPiece (p : List Char) : Bool :=
  decide (p ≠ [] ∧ p ≠ ['.'])

/-- The path components `pathlib` keeps from a raw string. -/
def normParts (cs : List Char) : List (List Char) :=
  (splitSlash cs).filter goodPiece

/-- Whether a raw path string is absolute. -/
def isAbs : List Char → Bool
  | [] => false
  | c :: _ => decide (c = '/')

/-- `str(Path(raw))` for a POSIX path: drop empty and `"."` components,
rejoin with single slashes, keep the leading slash of an absolute path, and
print the empty relative path as `"."`. -/
def normalize (cs : List Char) : List Char :=
  if isAbs cs then '/' :: joinSlash (normParts cs)
  else if (normParts cs).isEmpty then ['.'] else joinSlash (normParts cs)

/-- A `pathlib.Path` value, identified with its printed form. -/
structure PyPath where
  chars : List Char
deriving DecidableEq

/-- `Path(s)`: parse a raw string into its normalized printed form. -/
def pathOfString (s : String) : PyPath := ⟨normalize s.data⟩

/-- `str(path)`. -/
def pathToString (p : PyPath) : String := String.mk p.chars

/-- The invariant every `pathlib.Path` value satisfies by construction: its
printed form re-parses to itself. -/
abbrev PyPath.normalized (p : PyPath) : Prop := normalize p.chars = p.chars

/-- From `cellemetry/config/dependencies.py`: the `AnalysisDeps` container
stored in session state. -/
structure AnalysisDeps where
  sam_model : PyVal
  sam_processor : PyVal
  image_path : PyPath
  device : String
  pixel_size_microns : Option ℚ

/-- Encoding of `Optional[float]` into a stored state value. -/
def optFloatVal : Option ℚ → PyVal
  | Option.none => PyVal.pynone
  | Option.some q => PyVal.num q

/-- From `cellemetry/config/dependencies.py`: `AnalysisDeps.to_state_dict`. -/
def AnalysisDeps.to_state_dict (d : AnalysisDeps) : StateDict :=
  [("app:sam_model", d.sam_model),
   ("app:sam_processor", d.sam_processor),
   ("app:image_path", PyVal.str (pathToString d.image_path)),
   ("app:device", PyVal.str d.device),
   ("app:pixel_size_microns", optFloatVal d.pixel_size_microns)]

/-- From `cellemetry/config/dependencies.py`: `get_deps_from_state`.
`Path(state.get("app:image_path"))` raises unless the stored value is a
string, modelled as `Option.none`; the typed `device` and
`pixel_size_microns` slots are read back from their stored encodings. -/
def get_deps_from_state (state : StateDict) : Option AnalysisDeps :=
  match stateGet state "app:image_path" with
  | PyVal.str s =>
    Option.some
      { sam_model := stateGet state "app:sam_model"
        sam_processor := stateGet state "app:sam_processor"
        image_path := pathOfString s
        device :=
          match stateGetD state "app:device" (PyVal.str "cpu") with
          | PyVal.str dv => dv
          | _ => "cpu"
        pixel_size_microns :=
          match stateGet state "app:pixel_size_microns" with
          | PyVal.num q => Option.some q
          | _ => Option.none }
  | _ => Option.none

/-- From `cellemetry/config/schemas.py`: a bounding box in 0–1000 normalized
coordinates. -/
structure BoundingBox where
  ymin : ℤ
  xmin : ℤ
  ymax : ℤ
  xmax : ℤ
deriving DecidableEq

/-- From `cellemetry/config/schemas.py`: a segmentation request. -/
structure ComponentRequest where
  entity : String
  color : String
  morphology : String
  bboxes : List BoundingBox

/-- A raw `bboxes` element as received by the tool: a dict of the four
fields, a list/tuple of numbers, or something else entirely. -/
inductive BBoxArg where
  | dict (ymin xmin ymax xmax : ℤ)
  | arr (elems : List ℤ)
  | other
deriving DecidableEq

/-- From `cellemetry/tools/segmentation.py`: the per-element conversion
inside `apply_sam3_tool` — dicts become `BoundingBox` directly, lists or
tuples of length 4 are read as `[ymin, xmin, ymax, xmax]`, everything else is
skipped with a warning. -/
def parse_bbox : BBoxArg → Option BoundingBox
  | BBoxArg.dict a b c d => Option.some ⟨a, b, c, d⟩
  | BBoxArg.arr [a, b, c, d] => Option.some ⟨a, b, c, d⟩
  | BBoxArg.arr _ => Option.none
  | BBoxArg.other => Option.none

/-- The dict returned by `apply_sam3_tool`. -/
structure Sam3Result where
  result : String
  mask_file : Option String
  plot_file : Option String
  count : ℤ
  label : String
deriving DecidableEq

/-- From `cellemetry/tools/segmentation.py`: extract the object count from a
segmentation result message of the form `... Found <n> ...`; 0 on any parse
failure. -/
def parse_found_count (s : String) : ℤ :=
  match s.splitOn "Found" with
  | _ :: tail :: _ =>
    match (tail.split (fun c => c.isWhitespace)).filter (fun w => w ≠ "") with
    | [] => 0
    | w :: _ => (w.toInt?).getD 0
  | _ => 0

/-- From `cellemetry/tools/segmentation.py`: the
`f"{color}_{entity}".replace(" ", "_").lower()` file label. -/
def safe_label (color entity : String) : String :=
  ((color ++ "_" ++ entity).replace " " "_").toLower

/-- From `cellemetry/tools/segmentation.py`: `apply_sam3_tool`.  Dependencies
are resolved from session state first; raw boxes are converted one by one; if
none survives, the tool returns the error dict without calling
`sam.execute_segmentation` (passed in as a parameter); otherwise it runs the
segmentation and assembles the output file paths.  `Option.none` models the
exception raised when the session state holds no image path. -/
def apply_sam3_tool
    (execute_segmentation : AnalysisDeps → ComponentRequest → String)
    (entity color morphology : String) (bboxes : List BBoxArg)
    (tool_context : StateDict) : Option Sam3Result :=
  match get_deps_from_state tool_context with
  | Option.none => Option.none
  | Option.some deps =>
    let bbox_objects := bboxes.filterMap parse_bbox
    if bbox_objects.isEmpty then
      Option.some
        { result := "ERROR: No valid bounding boxes provided"
          mask_file := Option.none
          plot_file := Option.none
          count := 0
          label := color ++ " " ++ morphology ++ " " ++ entity }
    else
      let request : ComponentRequest := ⟨entity, color, morphology, bbox_objects⟩
      let result_str := execute_segmentation deps request
      let sl := safe_label color entity
      Option.some
        { result := result_str
          mask_file := Option.some ("/tmp/data_" ++ sl ++ ".npz")
          plot_file := Option.some ("/tmp/out_" ++ sl ++ ".png")
          count := parse_found_count result_str
          label := color ++ " " ++ morphology ++ " " ++ entity }

/-- From `cellemetry/config/schemas.py` (`BasicStats`): the pydantic output
schema; only `unit` has a declared default, and that default is the literal
string in the source file. -/
structure SchemaBasicStats where
  count : ℕ
  area_mean : ℚ
  area_std : ℚ
  unit : String := "pxÂ²"

/-- From `cellemetry_grid/config/schemas.py` (`BasicStats`): the grid
variant, every field defaulted; `unit` defaults to the literal string in the
source file. -/
structure GridBasicStats where
  count : ℕ := 0
  area_mean : ℚ := 0
  area_std : ℚ := 0
  unit : String := "pxÂ²"

/-- From `cellemetry/config/schemas.py`: the field names of the `SpatialStats`
pydantic model, in source order. -/
def cellemetrySpatialStatsFields : List String :=
  ["avg_nnd", "std_nnd", "density", "avg_neighbor_count", "std_neighbor_count",
   "dist_unit", "density_unit"]

/-- From `cellemetry_grid/config/schemas.py`: the field names of the grid
`SpatialStats` pydantic model, in source order. -/
def gridSpatialStatsFields : List String :=
  ["density", "avg_nnd", "std_nnd", "avg_neighbor_count", "dist_unit",
   "density_unit"]

/-! ## Helper lemmas -/

theorem qmean_nil : qmean [] = 0 := rfl

theorem pstd_nil : pstd [] = 0 := by
  simp [pstd, qvariance, Real.sqrt_zero]

theorem pstd_nonneg (xs : List ℚ) : 0 ≤ pstd xs := Real.sqrt_nonneg _

theorem qmean_nonneg (xs : List ℚ) (h : ∀ x ∈ xs, 0 ≤ x) : 0 ≤ qmean xs := by
  unfold qmean
  split
  · exact le_refl 0
  · exact div_nonneg (List.sum_nonneg h) (Nat.cast_nonneg _)

theorem qmean_map_mul (xs : List ℚ) (c : ℚ) :
    qmean (xs.map (fun x => x * c)) = qmean xs * c := by
  unfold qmean
  rcases xs with _ | ⟨x, xs⟩
  · simp
  · have hlen : ((x :: xs).map (fun x => x * c)).length = (x :: xs).length :=
      List.length_map _ _
    rw [hlen]
    have hne : ¬(x :: xs).length = 0 := by simp
    rw [if_neg hne, if_neg hne]
    have hsum : ((x :: xs).map (fun x => x * c)).sum = (x :: xs).sum * c := by
      simpa using List.sum_map_mul_right (x :: xs) id c
    rw [hsum, mul_div_right_comm]

theorem candidates_bound (A B : MaskCollection) :
    ∀ c ∈ candidates A B, c.aIdx < A.length ∧ c.bIdx < B.length := by
  intro c hc
  simp only [candidates, List.mem_flatMap, List.mem_filterMap, List.mem_range] at hc
  obtain ⟨j, hj, i, hi, hc⟩ := hc
  split at hc
  · cases hc
    exact ⟨hi, hj⟩
  · cases hc

theorem greedy_foldl_inv (nA nB : ℕ) :
    ∀ (cs : List Cand) (s : MatchState), MatchInv nA nB s →
      (∀ c ∈ cs, c.aIdx < nA ∧ c.bIdx < nB) →
      MatchInv nA nB (cs.foldl greedy_step s) := by
  intro cs
  induction cs with
  | nil => intro s hs _; exact hs
  | cons c cs ih =>
    intro s hs hb
    have hc := hb c (List.mem_cons_self c cs)
    have hstep : MatchInv nA nB (greedy_step s c) := by
      unfold greedy_step
      split
      · exact hs
      · rename_i hnot
        push_neg at hnot
        obtain ⟨hA, hB, hsubA, hsubB⟩ := hs
        refine ⟨?_, ?_, ?_, ?_⟩
        · rw [List.length_append, List.length_singleton,
            Finset.card_insert_of_not_mem hnot.1, hA]
        · rw [List.length_append, List.length_singleton,
            Finset.card_insert_of_not_mem hnot.2, hB]
        · exact Finset.insert_subset_iff.mpr ⟨Finset.mem_range.mpr hc.1, hsubA⟩
        · exact Finset.insert_subset_iff.mpr ⟨Finset.mem_range.mpr hc.2, hsubB⟩
    exact ih (greedy_step s c) hstep (fun c' hc' => hb c' (List.mem_cons_of_mem c hc'))

/-! ## Claim theorems -/

/-- C1: the relational statistics reported for any two mask files satisfy
`0 ≤ matched_pairs ≤ min(count A, count B)` — the greedy 1:1 matching never
reports more pairs than the smaller population. -/
theorem matched_pairs_le_min (fs : String → MaskCollection)
    (cell_file nuc_file : String) (ctx : StateDict) :
    0 ≤ (get_relationship_stats fs cell_file nuc_file ctx).matched_pairs ∧
    (get_relationship_stats fs cell_file nuc_file ctx).matched_pairs ≤
      min (fs cell_file).length (fs nuc_file).length := by
  refine ⟨Nat.zero_le _, ?_⟩
  set A := fs cell_file with hA
  set B := fs nuc_file with hB
  have hbound : ∀ c ∈ (candidates A B).mergeSort cand_le,
      c.aIdx < A.length ∧ c.bIdx < B.length := by
    intro c hc
    exact candidates_bound A B c (List.mem_mergeSort.mp hc)
  have hinv : MatchInv A.length B.length
      (greedy_match ((candidates A B).mergeSort cand_le)) :=
    greedy_foldl_inv A.length B.length _ ⟨∅, ∅, []⟩
      ⟨by simp, by simp, by simp, by simp⟩ hbound
  obtain ⟨ha, hb, hsubA, hsubB⟩ := hinv
  have h1 : (greedy_match ((candidates A B).mergeSort cand_le)).pairs.length ≤
      A.length := by
    rw [ha]
    calc (greedy_match ((candidates A B).mergeSort cand_le)).usedA.card
        ≤ (Finset.range A.length).card := Finset.card_le_card hsubA
      _ = A.length := Finset.card_range _
  have h2 : (greedy_match ((candidates A B).mergeSort cand_le)).pairs.length ≤
      B.length := by
    rw [hb]
    calc (greedy_match ((candidates A B).mergeSort cand_le)).usedB.card
        ≤ (Finset.range B.length).card := Finset.card_le_card hsubB
      _ = B.length := Finset.card_range _
  exact le_min h1 h2

/-- C2: for the empty mask collection and every valid pixel scale (including
none), the basic-stats call succeeds with count 0 and zero mean and standard
deviation, and the spatial-stats call succeeds with every statistic equal to
zero; neither call reports an error. -/
theorem empty_collection_stats (scale : Option ℚ) (h : scale_valid scale) :
    basic_stats_checked [] scale = Except.ok (get_basic_stats [] scale) ∧
    (get_basic_stats [] scale).count = 0 ∧
    (get_basic_stats [] scale).area_mean = 0 ∧
    (get_basic_stats [] scale).area_std = 0 ∧
    spatial_stats_checked [] scale = Except.ok (get_spatial_stats [] scale) ∧
    (get_spatial_stats [] scale).avg_nnd = 0 ∧
    (get_spatial_stats [] scale).std_nnd = 0 ∧
    (get_spatial_stats [] scale).density = 0 ∧
    (get_spatial_stats [] scale).avg_neighbor_count = 0 ∧
    (get_spatial_stats [] scale).std_neighbor_count = 0 := by
  have hc : check_scale scale = Except.ok () := by
    cases scale with
    | none => rfl
    | some s =>
      have hs : ¬s ≤ 0 := not_le.mpr h
      simp [check_scale, hs]
  have hstd : (get_basic_stats [] scale).area_std = 0 := by
    simp [get_basic_stats, pstd, qvariance, Real.sqrt_zero]
  exact ⟨by simp [basic_stats_checked, hc], rfl, rfl, hstd,
    by simp [spatial_stats_checked, hc], rfl, rfl, rfl, rfl, rfl⟩

/-- C2 witness: the theorem applied at the concrete scale 2. -/
theorem empty_collection_stats_witness :
    basic_stats_checked [] (Option.some 2) =
        Except.ok (get_basic_stats [] (Option.some 2)) ∧
    (get_basic_stats [] (Option.some 2)).count = 0 ∧
    (get_basic_stats [] (Option.some 2)).area_mean = 0 ∧
    (get_basic_stats [] (Option.some 2)).area_std = 0 ∧
    spatial_stats_checked [] (Option.some 2) =
        Except.ok (get_spatial_stats [] (Option.some 2)) ∧
    (get_spatial_stats [] (Option.some 2)).avg_nnd = 0 ∧
    (get_spatial_stats [] (Option.some 2)).std_nnd = 0 ∧
    (get_spatial_stats [] (Option.some 2)).density = 0 ∧
    (get_spatial_stats [] (Option.some 2)).avg_neighbor_count = 0 ∧
    (get_spatial_stats [] (Option.some 2)).std_neighbor_count = 0 :=
  empty_collection_stats (Option.some 2) (by norm_num [scale_valid])

/-- C3: for every collection and every positive scale `s`, the area mean
reported with pixel scale `s` equals the unscaled area mean times `s²`. -/
theorem area_mean_scaling (coll : MaskCollection) (s : ℚ) (h : 0 < s) :
    (get_basic_stats coll (Option.some s)).area_mean =
      (get_basic_stats coll Option.none).area_mean * s ^ 2 := by
  simp only [get_basic_stats, convert_area]
  have hmap : (coll.map fun m => (m.area : ℚ) * s ^ 2)
      = (coll.map fun m => (m.area : ℚ)).map (fun x => x * s ^ 2) := by
    rw [List.map_map]
    rfl
  rw [hmap, qmean_map_mul]

/-- C3 witness: the theorem applied to a concrete one-object collection at
scale 2, where the scaled mean 4 is indeed the unscaled mean 1 times 2². -/
theorem area_mean_scaling_witness :
    (0 : ℚ) < 2 ∧
    (get_basic_stats [⟨{(0, 0)}⟩] (Option.some 2)).area_mean =
      (get_basic_stats [⟨{(0, 0)}⟩] Option.none).area_mean * 2 ^ 2 :=
  ⟨by norm_num, area_mean_scaling [⟨{(0, 0)}⟩] 2 (by norm_num)⟩

/-- C4: the `get_relationship_stats` tool returns identical results for the
same two (unchanged) mask files whatever session state is supplied — the
result is a function of the two file paths' contents alone. -/
theorem relationship_stats_state_independent (fs : String → MaskCollection)
    (cell_file nuc_file : String) (ctx₁ ctx₂ : StateDict) :
    get_relationship_stats fs cell_file nuc_file ctx₁ =
      get_relationship_stats fs cell_file nuc_file ctx₂ := rfl

/-- C5: `compute_comprehensive_stats` fills `cell_stats` and `spatial_stats`
iff `cell_file` is truthy, `nuclei_stats` iff `nuc_file` is truthy, and
`relational_stats` iff both are; fields whose input is absent stay `None`. -/
theorem comprehensive_stats_presence {B S R : Type}
    (basic : String → Option ℚ → B) (spatial : String → Option ℚ → S)
    (relational : String → String → R) (cell_file nuc_file : Option String)
    (pixel_scale : Option ℚ) :
    ((compute_comprehensive_stats basic spatial relational cell_file nuc_file
        pixel_scale).cell_stats ≠ Option.none ↔ pyTruthyStr cell_file = true) ∧
    ((compute_comprehensive_stats basic spatial relational cell_file nuc_file
        pixel_scale).spatial_stats ≠ Option.none ↔ pyTruthyStr cell_file = true) ∧
    ((compute_comprehensive_stats basic spatial relational cell_file nuc_file
        pixel_scale).nuclei_stats ≠ Option.none ↔ pyTruthyStr nuc_file = true) ∧
    ((compute_comprehensive_stats basic spatial relational cell_file nuc_file
        pixel_scale).relational_stats ≠ Option.none ↔
      (pyTruthyStr cell_file = true ∧ pyTruthyStr nuc_file = true)) := by
  cases hcf : pyTruthyStr cell_file <;> cases hnf : pyTruthyStr nuc_file <;>
    simp [compute_comprehensive_stats, hcf, hnf]

/-- C6: a non-positive pixel scale makes both statistics calls fail
immediately with `InvalidScaleError`. -/
theorem invalid_scale_rejected (coll : MaskCollection) (s : ℚ) (h : s ≤ 0) :
    basic_stats_checked coll (Option.some s) =
        Except.error AnalysisError.invalidScale ∧
    spatial_stats_checked coll (Option.some s) =
        Except.error AnalysisError.invalidScale := by
  constructor <;>
    simp [basic_stats_checked, spatial_stats_checked, check_scale, h]

/-- C6 witness: the theorem applied to the empty collection at scale −1. -/
theorem invalid_scale_rejected_witness :
    (-1 : ℚ) ≤ 0 ∧
    (basic_stats_checked [] (Option.some (-1)) =
        Except.error AnalysisError.invalidScale ∧
      spatial_stats_checked [] (Option.some (-1)) =
        Except.error AnalysisError.invalidScale) :=
  ⟨by norm_num, invalid_scale_rejected [] (-1) (by norm_num)⟩

/-- C7 (code bug exhibit): the default `unit` label declared by both
`BasicStats` pydantic schemas is the mojibake string `"pxÂ²"` (the UTF-8
double encoding of `"px²"`), not `"px²"` as specified. -/
theorem basic_stats_unit_default_mojibake :
    ({ count := 0, area_mean := 0, area_std := 0 } : SchemaBasicStats).unit
        = "pxÂ²" ∧
    ({} : GridBasicStats).unit = "pxÂ²" ∧
    ({} : GridBasicStats).unit ≠ "px²" := by
  refine ⟨rfl, rfl, ?_⟩
  decide

/-- C8 counterexample: the grid `SpatialStats` schema declares no
`std_neighbor_count` field, so a spatial-statistics result represented by it
cannot contain that statistic. -/
theorem grid_spatial_stats_missing_std_neighbor_count :
    "std_neighbor_count" ∉ gridSpatialStatsFields := by
  decide

/-- C8 (amended): the cellemetry `SpatialStats` schema carries both
`avg_neighbor_count` and `std_neighbor_count`, the grid schema only
`avg_neighbor_count`; and in every spatial-statistics result both neighbor
count statistics are non-negative. -/
theorem spatial_neighbor_count_stats :
    ("avg_neighbor_count" ∈ cellemetrySpatialStatsFields ∧
      "std_neighbor_count" ∈ cellemetrySpatialStatsFields ∧
      "avg_neighbor_count" ∈ gridSpatialStatsFields) ∧
    ∀ (coll : MaskCollection) (scale : Option ℚ),
      0 ≤ (get_spatial_stats coll scale).avg_neighbor_count ∧
      0 ≤ (get_spatial_stats coll scale).std_neighbor_count := by
  refine ⟨by decide, ?_⟩
  intro coll scale
  by_cases hn : coll.length ≤ 1
  · simp [get_spatial_stats, hn]
  · simp only [get_spatial_stats, hn, if_false, ite_false]
    constructor
    · apply qmean_nonneg
      intro x hx
      simp only [List.mem_map, List.mem_range] at hx
      obtain ⟨i, _, rfl⟩ := hx
      exact Nat.cast_nonneg _
    · exact pstd_nonneg _

/-- C9: when no element of `bboxes` is a dict or a length-4 list/tuple, the
tool answers with the error dict — count 0, no mask file, no plot file, the
`"ERROR: No valid bounding boxes provided"` message — and the segmentation
service (universally quantified here) is never invoked. -/
theorem sam3_no_valid_bboxes
    (execute_segmentation : AnalysisDeps → ComponentRequest → String)
    (entity color morphology : String) (bboxes : List BBoxArg)
    (ctx : StateDict) (deps : AnalysisDeps)
    (hdeps : get_deps_from_state ctx = Option.some deps)
    (hbb : bboxes.filterMap parse_bbox = []) :
    apply_sam3_tool execute_segmentation entity color morphology bboxes ctx =
      Option.some
        { result := "ERROR: No valid bounding boxes provided"
          mask_file := Option.none
          plot_file := Option.none
          count := 0
          label := color ++ " " ++ morphology ++ " " ++ entity } := by
  simp [apply_sam3_tool, hdeps, hbb]

/-- C9 witness: the theorem applied to a concrete box list with no valid
element and a concrete session state. -/
theorem sam3_no_valid_bboxes_witness :
    ([BBoxArg.other, BBoxArg.arr [1, 2, 3]].filterMap parse_bbox = []) ∧
    apply_sam3_tool (fun _ _ => "Found 7 objects") "cell" "green" "round"
        [BBoxArg.other, BBoxArg.arr [1, 2, 3]]
        [("app:image_path", PyVal.str "/tmp/cells.png")] =
      Option.some
        { result := "ERROR: No valid bounding boxes provided"
          mask_file := Option.none
          plot_file := Option.none
          count := 0
          label := "green" ++ " " ++ "round" ++ " " ++ "cell" } :=
  ⟨rfl,
    sam3_no_valid_bboxes (fun _ _ => "Found 7 objects") "cell" "green" "round"
      [BBoxArg.other, BBoxArg.arr [1, 2, 3]]
      [("app:image_path", PyVal.str "/tmp/cells.png")]
      { sam_model := PyVal.pynone
        sam_processor := PyVal.pynone
        image_path := pathOfString "/tmp/cells.png"
        device := "cpu"
        pixel_size_microns := Option.none }
      rfl rfl⟩

theorem splitSlash_ne_nil : ∀ cs : List Char, splitSlash cs ≠ [] := by
  intro cs
  match cs with
  | [] => simp [splitSlash]
  | c :: cs' =>
    simp only [splitSlash]
    split
    · simp
    · split
      · simp
      · simp

theorem not_slash_mem_splitSlash :
    ∀ (cs : List Char) (p : List Char), p ∈ splitSlash cs → '/' ∉ p := by
  intro cs
  induction cs with
  | nil =>
    intro p hp
    simp only [splitSlash, List.mem_singleton] at hp
    subst hp
    simp
  | cons c cs ih =>
    intro p hp
    simp only [splitSlash] at hp
    by_cases hc : c = '/'
    · rw [if_pos hc] at hp
      rcases List.mem_cons.mp hp with h1 | h2
      · subst h1; simp
      · exact ih p h2
    · rw [if_neg hc] at hp
      rcases hsc : splitSlash cs with _ | ⟨q, qs⟩
      · exact absurd hsc (splitSlash_ne_nil cs)
      · rw [hsc] at hp
        rcases List.mem_cons.mp hp with h1 | h2
        · subst h1
          intro hmem
          rcases List.mem_cons.mp hmem with h3 | h4
          · exact hc h3.symm
          · exact ih q (by rw [hsc]; exact List.mem_cons_self q qs) h4
        · exact ih p (by rw [hsc]; exact List.mem_cons_of_mem q h2)

theorem splitSlash_of_no_slash :
    ∀ p : List Char, '/' ∉ p → splitSlash p = [p] := by
  intro p
  induction p with
  | nil => intro _; rfl
  | cons c cs ih =>
    intro h
    simp only [List.mem_cons, not_or] at h
    obtain ⟨h1, h2⟩ := h
    have hc : ¬c = '/' := fun e => h1 e.symm
    simp [splitSlash, hc, ih h2]

theorem splitSlash_append_slash :
    ∀ (p t : List Char), '/' ∉ p → splitSlash (p ++ '/' :: t) = p :: splitSlash t := by
  intro p
  induction p with
  | nil => intro t _; simp [splitSlash]
  | cons c cs ih =>
    intro t h
    simp only [List.mem_cons, not_or] at h
    obtain ⟨h1, h2⟩ := h
    have hc : ¬c = '/' := fun e => h1 e.symm
    simp [List.cons_append, splitSlash, hc, ih t h2]

theorem splitSlash_joinSlash :
    ∀ ps : List (List Char), (∀ p ∈ ps, '/' ∉ p) → ps ≠ [] →
      splitSlash (joinSlash ps) = ps := by
  intro ps
  induction ps with
  | nil => intro _ h; exact absurd rfl h
  | cons p ps ih =>
    intro hmem _
    cases ps with
    | nil =>
      simpa [joinSlash] using splitSlash_of_no_slash p (hmem p (List.mem_cons_self p []))
    | cons q qs =>
      have h1 : '/' ∉ p := hmem p (List.mem_cons_self p (q :: qs))
      rw [show joinSlash (p :: q :: qs) = p ++ '/' :: joinSlash (q :: qs) from rfl]
      rw [splitSlash_append_slash p _ h1]
      rw [ih (fun r hr => hmem r (List.mem_cons_of_mem p hr)) (by simp)]

theorem isAbs_joinSlash :
    ∀ (p : List Char) (ps : List (List Char)), p ≠ [] → '/' ∉ p →
      isAbs (joinSlash (p :: ps)) = false := by
  intro p ps hne h
  cases p with
  | nil => exact absurd rfl hne
  | cons c cs =>
    simp only [List.mem_cons, not_or] at h
    have hc : ¬c = '/' := fun e => h.1 e.symm
    cases ps with
    | nil => simp [joinSlash, isAbs, hc]
    | cons q qs => simp [joinSlash, isAbs, hc]

theorem normalize_idem (cs : List Char) : normalize (normalize cs) = normalize cs := by
  have hgood : ∀ p ∈ normParts cs, goodPiece p = true :=
    fun p hp => List.of_mem_filter hp
  have hslash : ∀ p ∈ normParts cs, '/' ∉ p :=
    fun p hp => not_slash_mem_splitSlash cs p (List.mem_of_mem_filter hp)
  by_cases habs : isAbs cs = true
  · have hn : normalize cs = '/' :: joinSlash (normParts cs) := by
      rw [normalize, if_pos habs]
    rw [hn]
    have habs2 : isAbs ('/' :: joinSlash (normParts cs)) = true := by simp [isAbs]
    rw [normalize, if_pos habs2]
    congr 1
    have hsplit : splitSlash ('/' :: joinSlash (normParts cs)) =
        [] :: splitSlash (joinSlash (normParts cs)) := by simp [splitSlash]
    have hstep : normParts ('/' :: joinSlash (normParts cs)) =
        List.filter goodPiece (splitSlash (joinSlash (normParts cs))) := by
      rw [normParts, hsplit]
      simp [goodPiece]
    rw [hstep]
    rcases hps : normParts cs with _ | ⟨p, ps'⟩
    · simp [joinSlash, splitSlash, goodPiece]
    · rw [← hps]
      rw [splitSlash_joinSlash (normParts cs) hslash (by rw [hps]; simp)]
      exact congrArg joinSlash (List.filter_eq_self.mpr hgood)
  · have hn : normalize cs =
        if (normParts cs).isEmpty then ['.'] else joinSlash (normParts cs) := by
      rw [normalize, if_neg habs]
    rcases hps : normParts cs with _ | ⟨p, ps'⟩
    · rw [hn]
      simp only [hps, List.isEmpty_nil, if_true]
      decide
    · have hne : ¬(normParts cs).isEmpty = true := by rw [hps]; simp
      rw [hn, if_neg hne]
      have hp_mem : p ∈ normParts cs := by rw [hps]; exact List.mem_cons_self p ps'
      have hp_good : p ≠ [] ∧ p ≠ ['.'] := by
        have := hgood p hp_mem
        simpa [goodPiece] using this
      have hpslash : '/' ∉ p := hslash p hp_mem
      have habs2 : isAbs (joinSlash (normParts cs)) = false := by
        rw [hps]
        exact isAbs_joinSlash p ps' hp_good.1 hpslash
      rw [normalize, if_neg (by simp [habs2])]
      have hsplit : splitSlash (joinSlash (normParts cs)) = normParts cs :=
        splitSlash_joinSlash (normParts cs) hslash (by rw [hps]; simp)
      have hnp : normParts (joinSlash (normParts cs)) = normParts cs := by
        rw [normParts, hsplit]
        exact List.filter_eq_self.mpr hgood
      rw [hnp, if_neg hne]

theorem pathOfString_normalized (s : String) : (pathOfString s).normalized :=
  normalize_idem s.data

theorem pathOfString_pathToString (p : PyPath) (h : p.normalized) :
    pathOfString (pathToString p) = p := by
  obtain ⟨cs⟩ := p
  exact congrArg PyPath.mk h

/-- C10: serialising `AnalysisDeps` into session state and reconstructing it
is lossless — model, processor, device and pixel size come back unchanged and
`image_path` survives the Path → str → Path round trip. -/
theorem deps_state_roundtrip (d : AnalysisDeps) (h : d.image_path.normalized) :
    get_deps_from_state d.to_state_dict = Option.some d := by
  obtain ⟨sm, sp, ip, dev, px⟩ := d
  have hpath : pathOfString (pathToString ip) = ip := pathOfString_pathToString ip h
  cases px with
  | none =>
    conv_rhs => rw [← hpath]
    rfl
  | some q =>
    conv_rhs => rw [← hpath]
    rfl

/-- C10 witness: the theorem applied to a concrete dependency container. -/
theorem deps_state_roundtrip_witness :
    get_deps_from_state
        (AnalysisDeps.to_state_dict
          { sam_model := PyVal.obj 1
            sam_processor := PyVal.obj 2
            image_path := pathOfString "/tmp/img.png"
            device := "cuda"
            pixel_size_microns := Option.some (27 / 100) }) =
      Option.some
        { sam_model := PyVal.obj 1
          sam_processor := PyVal.obj 2
          image_path := pathOfString "/tmp/img.png"
          device := "cuda"
          pixel_size_microns := Option.some (27 / 100) } :=
  deps_state_roundtrip
    { sam_model := PyVal.obj 1
      sam_processor := PyVal.obj 2
      image_path := pathOfString "/tmp/img.png"
      device := "cuda"
      pixel_size_microns := Option.some (27 / 100) }
    (by decide)

end Cellemetry
